import Mathlib

/-!
Verification development for the XAU/USD live-trader core
(candle aggregation, session state machine, entry detection).

The Python sources are shallowly embedded as executable Lean
definitions.  Prices are modelled as rationals, timestamps as absolute
minute counts (so the Python `timestamp.minute` field is `t % 60`),
and Python `None` as `Option.none`.  Configuration constants are the
values of `config.template.py`.
-/

namespace XauUsd

/-! ## Configuration constants (src/config.template.py) -/

def SKIP_FIRST_N : Nat := 5

def FVG_LOOKBACK : Nat := 3

def RETEST_PCT : ℚ := 5/100

def ENABLE_OR_FILTER : Bool := true

def MIN_OR_RANGE : ℚ := 12

def MAX_OR_RANGE : ℚ := 18

def MAX_1M_CANDLES : Nat := 500

def MAX_5M_CANDLES : Nat := 100

/-- Session start 09:30 NY, in minutes since midnight. -/
def SESSION_START_MIN : Nat := 570

/-- OR lock time 09:35 NY, in minutes since midnight. -/
def OR_LOCK_MIN : Nat := 575

/-- Session end 16:00 NY, in minutes since midnight. -/
def SESSION_END_MIN : Nat := 960

/-! ## Candle primitive (src/candle_buffer.py, class Candle) -/

/-- An OHLCV candle.  `timestamp` is an absolute minute count;
`open_price` is the Python attribute `open` (a Lean keyword). -/
structure Candle where
  timestamp : Nat
  open_price : ℚ
  high : ℚ
  low : ℚ
  close : ℚ
  volume : Nat
deriving DecidableEq, Repr

/-- The `.minute` field of a timestamp. -/
def minuteOf (t : Nat) : Nat := t % 60

/-- Python `max(...)` over a list of rationals (the empty case is
never reached behind the nonemptiness guards of the source). -/
def listMax : List ℚ → ℚ
  | [] => 0
  | [x] => x
  | x :: y :: t => max x (listMax (y :: t))

/-- Python `min(...)` over a list of rationals. -/
def listMin : List ℚ → ℚ
  | [] => 0
  | [x] => x
  | x :: y :: t => min x (listMin (y :: t))

/-- Placeholder candle used for `headD`/`getLastD` reads that the
source performs only behind length guards making them in-bounds. -/
def dummyCandle : Candle :=
  { timestamp := 0, open_price := 0, high := 0, low := 0, close := 0, volume := 0 }

/-- Append to a `deque(maxlen = cap)`: push and evict the oldest
elements past capacity. -/
def pushMax (cap : Nat) (xs : List Candle) (x : Candle) : List Candle :=
  let ys := xs ++ [x]
  if ys.length > cap then ys.drop (ys.length - cap) else ys

/-! ## CandleBuffer (src/candle_buffer.py) -/

/-- The 5-minute aggregate built from a block of base candles
(the candle constructed inside `_update_5m_candles`). -/
def mk5mCandle (recent5 : List Candle) : Candle :=
  { timestamp := (recent5.headD dummyCandle).timestamp
    open_price := (recent5.headD dummyCandle).open_price
    high := listMax (recent5.map (·.high))
    low := listMin (recent5.map (·.low))
    close := (recent5.getLastD dummyCandle).close
    volume := (recent5.map (·.volume)).sum }

/-- `CandleBuffer._update_5m_candles`: given the closed 1-minute
history and the current 5-minute history, append a 5-minute candle
when the last 1m candle's minute is 4 mod 5 and the fifth-most-recent
1m candle's minute is 0 mod 5. -/
def update5mCandles (candles1m : List Candle) (candles5m : List Candle) : List Candle :=
  if candles1m.length < 5 then candles5m
  else
    let last1m := candles1m.getLastD dummyCandle
    if minuteOf last1m.timestamp % 5 = 4 then
      let recent5 := candles1m.drop (candles1m.length - 5)
      if minuteOf (recent5.headD dummyCandle).timestamp % 5 = 0 then
        pushMax MAX_5M_CANDLES candles5m (mk5mCandle recent5)
      else candles5m
    else candles5m

/-- The rolling buffer state: closed 1-minute and 5-minute candles. -/
structure CandleBuffer where
  candles1m : List Candle
  candles5m : List Candle
deriving DecidableEq, Repr

/-- `CandleBuffer._close_1m_candle`: append the closed candle to the
1-minute history (bounded deque) and rebuild 5-minute candles. -/
def close1mCandle (buf : CandleBuffer) (candle : Candle) : CandleBuffer :=
  let c1 := pushMax MAX_1M_CANDLES buf.candles1m candle
  { candles1m := c1, candles5m := update5mCandles c1 buf.candles5m }

/-! ## Session state machine (src/session_state.py) -/

/-- `SessionState` enum. -/
inductive SessionState where
  | PRE_OR
  | OR_BUILDING
  | OR_LOCKED
  | POST_OR_TRADING
  | SESSION_CLOSED
deriving DecidableEq, Repr

/-- `SessionStateMachine` fields.  Dates are abstract day numbers;
`current_date` is `none` before the first `update`. -/
structure SessionSM where
  state : SessionState
  or_high : Option ℚ
  or_low : Option ℚ
  or_open_time : Option Nat
  or_close_time : Option Nat
  trade_taken : Bool
  current_date : Option Nat
deriving DecidableEq, Repr

namespace SessionSM

/-- `SessionStateMachine.__init__`. -/
def init : SessionSM :=
  { state := .PRE_OR, or_high := none, or_low := none, or_open_time := none
    or_close_time := none, trade_taken := false, current_date := none }

/-- `SessionStateMachine._transition_to` (logging dropped). -/
def transitionTo (m : SessionSM) (newState : SessionState) : SessionSM :=
  { m with state := newState }

/-- `SessionStateMachine._reset_for_new_day`. -/
def resetForNewDay (m : SessionSM) (newDate : Nat) : SessionSM :=
  { m with state := .PRE_OR, or_high := none, or_low := none,
           or_open_time := none, or_close_time := none,
           trade_taken := false, current_date := some newDate }

/-- `SessionStateMachine._handle_pre_or`; `currentTime` is minutes
since midnight NY. -/
def handlePreOr (m : SessionSM) (currentTime : Nat) : SessionSM :=
  if currentTime ≥ SESSION_START_MIN then m.transitionTo .OR_BUILDING else m

/-- `SessionStateMachine._handle_or_building`; `orCandles` is the
result of `candle_buffer.get_or_candles()`. -/
def handleOrBuilding (m : SessionSM) (currentTime : Nat) (orCandles : List Candle) :
    SessionSM :=
  if currentTime ≥ OR_LOCK_MIN then
    if orCandles.length > 0 then
      let oh := listMax (orCandles.map (·.high))
      let ol := listMin (orCandles.map (·.low))
      let m := { m with or_high := some oh, or_low := some ol,
                        or_open_time := some (orCandles.headD dummyCandle).timestamp,
                        or_close_time := some (orCandles.getLastD dummyCandle).timestamp }
      let orRange := oh - ol
      if ENABLE_OR_FILTER then
        if orRange < MIN_OR_RANGE then m.transitionTo .SESSION_CLOSED
        else if orRange > MAX_OR_RANGE then m.transitionTo .SESSION_CLOSED
        else m.transitionTo .OR_LOCKED
      else m.transitionTo .OR_LOCKED
    else m
  else m

/-- `SessionStateMachine._handle_or_locked`. -/
def handleOrLocked (m : SessionSM) : SessionSM :=
  m.transitionTo .POST_OR_TRADING

/-- `SessionStateMachine._handle_post_or_trading`. -/
def handlePostOrTrading (m : SessionSM) (currentTime : Nat) : SessionSM :=
  if currentTime ≥ SESSION_END_MIN then m.transitionTo .SESSION_CLOSED else m

/-- `SessionStateMachine.update`.  The wall clock read inside the
Python method (`get_ny_time()`) is passed explicitly as
`currentTime` (minutes since midnight NY) and `currentDate`; the
candle buffer is represented by the opening-range candle list the
handler queries from it. -/
def update (m : SessionSM) (currentTime : Nat) (currentDate : Nat)
    (orCandles : List Candle) : SessionSM :=
  let m := if m.current_date ≠ some currentDate then m.resetForNewDay currentDate else m
  match m.state with
  | .PRE_OR => m.handlePreOr currentTime
  | .OR_BUILDING => m.handleOrBuilding currentTime orCandles
  | .OR_LOCKED => m.handleOrLocked
  | .POST_OR_TRADING => m.handlePostOrTrading currentTime
  | .SESSION_CLOSED => m

/-- `SessionStateMachine.mark_trade_taken`. -/
def markTradeTaken (m : SessionSM) : SessionSM :=
  transitionTo { m with trade_taken := true } .SESSION_CLOSED

/-- `SessionStateMachine.can_trade`. -/
def canTrade (m : SessionSM) : Bool :=
  m.state == .POST_OR_TRADING && !m.trade_taken &&
    m.or_high.isSome && m.or_low.isSome

/-- `SessionStateMachine.get_or_range`. -/
def getOrRange (m : SessionSM) : Option ℚ × Option ℚ :=
  (m.or_high, m.or_low)

end SessionSM

/-- One orchestrator-visible operation on the session machine within
a day: an `update` at some wall-clock minute with some OR-candle
snapshot, or a `mark_trade_taken`. -/
inductive SessionOp where
  | upd (currentTime : Nat) (orCandles : List Candle)
  | mark
deriving Repr

/-- Apply one operation, all updates dated `d`. -/
def applySessionOp (d : Nat) (m : SessionSM) : SessionOp → SessionSM
  | .upd t oc => m.update t d oc
  | .mark => m.markTradeTaken

/-- Run a sequence of same-date operations. -/
def runSessionOps (d : Nat) (m : SessionSM) (ops : List SessionOp) : SessionSM :=
  ops.foldl (applySessionOp d) m

/-- Position of a state in the lifecycle order
PRE_OR < OR_BUILDING < OR_LOCKED < POST_OR_TRADING < SESSION_CLOSED. -/
def stateRank : SessionState → Nat
  | .PRE_OR => 0
  | .OR_BUILDING => 1
  | .OR_LOCKED => 2
  | .POST_OR_TRADING => 3
  | .SESSION_CLOSED => 4

/-! ## Entry detector (src/entry_detector.py) -/

/-- Trade direction (`'long'` / `'short'` strings in the source). -/
inductive Dir where
  | long
  | short
deriving DecidableEq, Repr

/-- The entry-signal dictionary built by `_generate_entry_signal`. -/
structure Signal where
  model : Nat
  direction : Option Dir
  entry_time : Nat
  entry_price : ℚ
  sl : ℚ
  tp : ℚ
  breakout_time : Option Nat
  retest_time : Option Nat
deriving DecidableEq, Repr

/-- `EntryDetector` instance state.  `breakout_candle` stores the
candle together with its recorded history index (the Python dict
`{'candle': ..., 'index': ...}`). -/
structure EntryDetector where
  breakout_seen : Bool
  breakout_direction : Option Dir
  breakout_time : Option Nat
  breakout_candle : Option (Candle × Nat)
  retest_active : Bool
  retest_candle : Option Candle
  retest_start_idx : Option Nat
  confirmed : Bool
  invalidated : Bool
  entry_signal : Option Signal
  signal_delivered : Bool
  candle_history : List Candle
  candles_since_or_lock : Nat
  or_high : Option ℚ
  or_low : Option ℚ
  or_range : Option ℚ
deriving DecidableEq, Repr

namespace EntryDetector

/-- `EntryDetector.reset` (also the `__init__` state). -/
def reset : EntryDetector :=
  { breakout_seen := false, breakout_direction := none, breakout_time := none
    breakout_candle := none, retest_active := false, retest_candle := none
    retest_start_idx := none, confirmed := false, invalidated := false
    entry_signal := none, signal_delivered := false, candle_history := []
    candles_since_or_lock := 0, or_high := none, or_low := none, or_range := none }

/-- `EntryDetector._reset_after_invalidation`: clear breakout /
retest / confirmation progress, keep `candle_history`,
`candles_since_or_lock` and the OR fields. -/
def resetAfterInvalidation (d : EntryDetector) : EntryDetector :=
  { d with breakout_seen := false, breakout_direction := none, breakout_time := none
           breakout_candle := none, retest_active := false, retest_candle := none
           retest_start_idx := none, invalidated := false, confirmed := false
           entry_signal := none, signal_delivered := false }

/-- `EntryDetector._generate_entry_signal`.  The Python `2 *` reward
multiple is the configured `RISK_REWARD = 2`.  On the Model-2 path the
source divides by `len(recent)`; with an empty history Python would
raise, which never happens on a generating call (the entry candle is
in the history); in ℚ the division then yields the junk value 0. -/
def generateEntrySignal (d : EntryDetector) (candle : Candle) (model : Nat) :
    EntryDetector :=
  let entryPrice := candle.close
  let slTp : ℚ × ℚ :=
    match model, d.retest_candle with
    | 1, some rc =>
      if d.breakout_direction = some .long then
        let sl0 := rc.low
        let sl := if sl0 ≥ entryPrice then entryPrice - 1/2 else sl0
        let slDist := entryPrice - sl
        (sl, entryPrice + 2 * slDist)
      else
        let sl0 := rc.high
        let sl := if sl0 ≤ entryPrice then entryPrice + 1/2 else sl0
        let slDist := sl - entryPrice
        (sl, entryPrice - 2 * slDist)
    | _, _ =>
      let recent :=
        if d.candle_history.length ≥ 14 then
          d.candle_history.drop (d.candle_history.length - 14)
        else d.candle_history
      let atr := ((recent.map fun c => c.high - c.low).sum) / (recent.length : ℚ)
      let slDist := 8/10 * atr
      if d.breakout_direction = some .long then
        (entryPrice - slDist, entryPrice + 2 * slDist)
      else
        (entryPrice + slDist, entryPrice - 2 * slDist)
  let sig : Signal :=
    { model := model, direction := d.breakout_direction
      entry_time := candle.timestamp, entry_price := entryPrice
      sl := slTp.1, tp := slTp.2, breakout_time := d.breakout_time
      retest_time := d.retest_candle.map (·.timestamp) }
  { d with entry_signal := some sig }

/-- `EntryDetector._check_for_breakout`.  `oh`/`ol` are the values of
`self.or_high` / `self.or_low`, which `process_candle` has just set. -/
def checkForBreakout (d : EntryDetector) (candle : Candle) (oh ol : ℚ) :
    EntryDetector :=
  if candle.close > oh then
    { d with breakout_seen := true, breakout_direction := some .long
             breakout_time := some candle.timestamp
             breakout_candle := some (candle, d.candle_history.length - 1) }
  else if candle.close < ol then
    { d with breakout_seen := true, breakout_direction := some .short
             breakout_time := some candle.timestamp
             breakout_candle := some (candle, d.candle_history.length - 1) }
  else d

/-- `EntryDetector._check_for_retest`.  `orRange` is `self.or_range`
as set by `process_candle`. -/
def checkForRetest (d : EntryDetector) (candle : Candle) (oh ol orRange : ℚ) :
    EntryDetector :=
  let tol := orRange * RETEST_PCT
  let anchor := if d.breakout_direction = some .long then oh else ol
  let bandLow := anchor - tol
  let bandHigh := anchor + tol
  if d.breakout_direction = some .long ∧ candle.close < oh then
    d.resetAfterInvalidation
  else if d.breakout_direction = some .short ∧ candle.close > ol then
    d.resetAfterInvalidation
  else
    let enteredZone :=
      if d.breakout_direction = some .long then
        candle.low ≤ bandHigh ∧ candle.high ≥ bandLow
      else
        candle.high ≥ bandLow ∧ candle.low ≤ bandHigh
    if enteredZone then
      { d with retest_active := true, retest_candle := some candle
               retest_start_idx := some (d.candle_history.length - 1) }
    else d

/-- `EntryDetector._check_for_confirmation`. -/
def checkForConfirmation (d : EntryDetector) (candle : Candle) (oh ol orRange : ℚ) :
    EntryDetector :=
  match d.retest_candle with
  | none => d
  | some rc =>
    let tol := orRange * RETEST_PCT
    let anchor := if d.breakout_direction = some .long then oh else ol
    let bandLow := anchor - tol
    let bandHigh := anchor + tol
    if d.breakout_direction = some .long ∧ candle.low < bandLow then
      d.resetAfterInvalidation
    else if d.breakout_direction = some .short ∧ candle.high > bandHigh then
      d.resetAfterInvalidation
    else if d.candle_history.length < 2 then d
    else
      let prevCandle := d.candle_history.getD (d.candle_history.length - 2) dummyCandle
      let consLow := rc.low - tol
      let consHigh := rc.high + tol
      let bodySize := |candle.close - candle.open_price|
      let fullRange := max (candle.high - candle.low) (1/10000)
      let bodyFrac := bodySize / fullRange
      let displacement :=
        if d.breakout_direction = some .long then
          let base := candle.close > consHigh ∧ candle.close > prevCandle.close ∧
            candle.high > prevCandle.high ∧ bodyFrac ≥ 30/100
          if d.candle_history.length ≥ 3 then
            let c1 := d.candle_history.getD (d.candle_history.length - 3) dummyCandle
            base ∨ c1.high < candle.low
          else base
        else
          let base := candle.close < consLow ∧ candle.close < prevCandle.close ∧
            candle.low < prevCandle.low ∧ bodyFrac ≥ 30/100
          if d.candle_history.length ≥ 3 then
            let c1 := d.candle_history.getD (d.candle_history.length - 3) dummyCandle
            base ∨ c1.low > candle.high
          else base
      if displacement then
        generateEntrySignal { d with confirmed := true } candle 1
      else d

/-- The FVG test at window start `i` inside `_check_for_fvg`:
`block[0]` against `block[-1]` for a window of `FVG_LOOKBACK` bars. -/
def fvgAt (hist : List Candle) (direction : Option Dir) (i : Nat) : Bool :=
  let c0 := hist.getD i dummyCandle
  let cLast := hist.getD (i + FVG_LOOKBACK - 1) dummyCandle
  if direction = some .long then decide (c0.high < cLast.low)
  else decide (c0.low > cLast.high)

/-- `EntryDetector._check_for_fvg` (Model 2).  The Python `for` loop
over `range(search_start, len - FVG_LOOKBACK + 1)` confirming on the
first gap is a first-match search over that index range. -/
def checkForFvg (d : EntryDetector) : EntryDetector :=
  if d.candle_history.length < FVG_LOOKBACK then d
  else
    match d.breakout_candle with
    | none => d
    | some bc =>
      let n := d.candle_history.length
      let searchStart := max bc.2 (n - 20)
      let stop := n - FVG_LOOKBACK + 1
      let idxs := (List.range (stop - searchStart)).map (· + searchStart)
      match idxs.find? (fvgAt d.candle_history d.breakout_direction) with
      | some i =>
        let entryCandle := d.candle_history.getD (i + FVG_LOOKBACK - 1) dummyCandle
        generateEntrySignal { d with confirmed := true } entryCandle 2
      | none => d

/-- `EntryDetector.process_candle`: returns the updated detector and
the Python return value. -/
def processCandle (d : EntryDetector) (candle : Candle) (orHigh orLow : ℚ) :
    EntryDetector × Option Signal :=
  let d := { d with or_high := some orHigh, or_low := some orLow
                    or_range := some (orHigh - orLow) }
  let hist0 := d.candle_history ++ [candle]
  let hist := if hist0.length > 50 then hist0.drop 1 else hist0
  let d := { d with candle_history := hist
                    candles_since_or_lock := d.candles_since_or_lock + 1 }
  if d.candles_since_or_lock ≤ SKIP_FIRST_N then (d, none)
  else if d.confirmed || d.invalidated then
    if d.signal_delivered then (d, none)
    else ({ d with signal_delivered := true }, d.entry_signal)
  else
    let d :=
      if !d.breakout_seen then checkForBreakout d candle orHigh orLow
      else if d.breakout_seen && !d.retest_active then
        checkForRetest d candle orHigh orLow (orHigh - orLow)
      else if d.retest_active && !d.confirmed then
        checkForConfirmation d candle orHigh orLow (orHigh - orLow)
      else d
    let d :=
      if d.breakout_seen && !d.retest_active && !d.confirmed &&
          (match d.breakout_candle with
           | some bc => decide (d.candle_history.length ≥ bc.2 + 10)
           | none => false) then
        checkForFvg d
      else d
    (d, d.entry_signal)

/-- `EntryDetector.get_signal`. -/
def getSignal (d : EntryDetector) : Option Signal := d.entry_signal

/-- `EntryDetector.is_invalidated`. -/
def isInvalidated (d : EntryDetector) : Bool := d.invalidated

end EntryDetector

/-- Feed a list of candles through `process_candle` (fixed OR bounds),
collecting the return value of each call in order. -/
def runDetector (d : EntryDetector) (cs : List Candle) (oh ol : ℚ) :
    EntryDetector × List (Option Signal) :=
  match cs with
  | [] => (d, [])
  | c :: rest =>
    let step := d.processCandle c oh ol
    let tail := runDetector step.1 rest oh ol
    (tail.1, step.2 :: tail.2)

/-! ## A concrete post-warm-up trade trace

OR bounds 2010/2000 (range 10, retest tolerance 0.5).  Five warm-up
bars, a long breakout (close 2012), a retest of the band
[2009.5, 2010.5], a displacement confirmation bar, and two idle bars
after it. -/

/-- Build a one-tick candle. -/
def mkBar (t : Nat) (o h l c : ℚ) : Candle :=
  { timestamp := t, open_price := o, high := h, low := l, close := c, volume := 1 }

def warmBar1 : Candle := mkBar 1 2005 2005 2005 2005

def warmBar2 : Candle := mkBar 2 2005 2005 2005 2005

def warmBar3 : Candle := mkBar 3 2005 2005 2005 2005

def warmBar4 : Candle := mkBar 4 2005 2005 2005 2005

def warmBar5 : Candle := mkBar 5 2005 2005 2005 2005

def breakoutBar : Candle := mkBar 6 2011 2013 2011 2012

def retestBar : Candle := mkBar 7 2011 2011 2010 2011

def confirmBar : Candle := mkBar 8 2012 (4029/2) 2012 2014

def idleBar9 : Candle := mkBar 9 2014 2014 2014 2014

def idleBar10 : Candle := mkBar 10 2014 2014 2014 2014

def tradeTrace : List Candle :=
  [warmBar1, warmBar2, warmBar3, warmBar4, warmBar5,
   breakoutBar, retestBar, confirmBar, idleBar9, idleBar10]

/-- Detector state after the k-th warm-up call. -/
def warmState (k : Nat) (hist : List Candle) : EntryDetector :=
  { breakout_seen := false, breakout_direction := none, breakout_time := none
    breakout_candle := none, retest_active := false, retest_candle := none
    retest_start_idx := none, confirmed := false, invalidated := false
    entry_signal := none, signal_delivered := false, candle_history := hist
    candles_since_or_lock := k, or_high := some 2010, or_low := some 2000
    or_range := some 10 }

def traceState5 : EntryDetector :=
  warmState 5 [warmBar1, warmBar2, warmBar3, warmBar4, warmBar5]

def traceState6 : EntryDetector :=
  { warmState 6 [warmBar1, warmBar2, warmBar3, warmBar4, warmBar5, breakoutBar] with
    breakout_seen := true, breakout_direction := some .long
    breakout_time := some 6, breakout_candle := some (breakoutBar, 5) }

def traceState7 : EntryDetector :=
  { traceState6 with
    candle_history := traceState6.candle_history ++ [retestBar]
    candles_since_or_lock := 7
    retest_active := true, retest_candle := some retestBar, retest_start_idx := some 6 }

/-- The Model-1 signal produced on the confirmation bar. -/
def traceSignal : Signal :=
  { model := 1, direction := some .long, entry_time := 8, entry_price := 2014
    sl := 2010, tp := 2022, breakout_time := some 6, retest_time := some 7 }

def traceState8 : EntryDetector :=
  { traceState7 with
    candle_history := traceState7.candle_history ++ [confirmBar]
    candles_since_or_lock := 8
    confirmed := true, entry_signal := some traceSignal }

def traceState9 : EntryDetector :=
  { traceState8 with
    candle_history := traceState8.candle_history ++ [idleBar9]
    candles_since_or_lock := 9, signal_delivered := true }

def traceState10 : EntryDetector :=
  { traceState9 with
    candle_history := traceState9.candle_history ++ [idleBar10]
    candles_since_or_lock := 10 }

/-! ## A gapped five-bar block for the aggregator

Minutes 570, 571, 572, 580, 584 (09:30, 09:31, 09:32, 09:40, 09:44 NY):
the last minute is 4 mod 5 and the fifth-most-recent is 0 mod 5, but the
interior bars are not contiguous. -/

def gapBlockBars : List Candle :=
  [ { timestamp := 570, open_price := 1, high := 5, low := 1, close := 2, volume := 1 }
  , { timestamp := 571, open_price := 2, high := 4, low := 2, close := 3, volume := 1 }
  , { timestamp := 572, open_price := 3, high := 6, low := 1, close := 4, volume := 1 }
  , { timestamp := 580, open_price := 4, high := 9, low := 3, close := 5, volume := 1 }
  , { timestamp := 584, open_price := 5, high := 7, low := 2, close := 6, volume := 1 } ]

/-- The aggregate the gapped block produces. -/
def gapAggregate : Candle :=
  { timestamp := 570, open_price := 1, high := 9, low := 1, close := 6, volume := 5 }

/-- Spec-side Model-2 stop distance: 0.8 times the mean of
(high - low) over the most recent at most 14 bars of history
(a uniform `drop` covers both branches of the source's length test,
since `length - 14 = 0` truncates for short histories). -/
def atrStopDist (d : EntryDetector) : ℚ :=
  let recent := d.candle_history.drop (d.candle_history.length - 14)
  8/10 * (((recent.map fun x => x.high - x.low).sum) / (recent.length : ℚ))

/-- The precondition under which a `process_candle` call runs one of
the two `_reset_after_invalidation` branches: a post-warm-up call on
an unconfirmed, uninvalidated detector that either (retest search)
has a breakout whose side the close re-enters, or (confirmation) has
an active retest whose tolerance band the bar breaks adversely. -/
def triggersInvalidation (d : EntryDetector) (c : Candle) (oh ol : ℚ) : Prop :=
  SKIP_FIRST_N < d.candles_since_or_lock + 1 ∧
  d.confirmed = false ∧ d.invalidated = false ∧ d.breakout_seen = true ∧
  ((d.retest_active = false ∧
     ((d.breakout_direction = some Dir.long ∧ c.close < oh) ∨
      (d.breakout_direction = some Dir.short ∧ c.close > ol))) ∨
   (d.retest_active = true ∧ (∃ rc, d.retest_candle = some rc) ∧
     ((d.breakout_direction = some Dir.long ∧ c.low < oh - (oh - ol) * RETEST_PCT) ∨
      (d.breakout_direction = some Dir.short ∧ c.high > ol + (oh - ol) * RETEST_PCT))))

theorem dir_long_ne_short : (Dir.long = Dir.short) = False := by decide

theorem dir_short_ne_long : (Dir.short = Dir.long) = False := by decide

theorem traceStep1 :
    EntryDetector.processCandle EntryDetector.reset warmBar1 2010 2000 =
      (warmState 1 [warmBar1], none) := by
  norm_num [EntryDetector.processCandle, EntryDetector.reset, warmState, warmBar1, mkBar,
    SKIP_FIRST_N, EntryDetector.mk.injEq, dir_long_ne_short, dir_short_ne_long]

theorem traceStep2 :
    EntryDetector.processCandle (warmState 1 [warmBar1]) warmBar2 2010 2000 =
      (warmState 2 [warmBar1, warmBar2], none) := by
  norm_num [EntryDetector.processCandle, warmState, warmBar1, warmBar2, mkBar,
    SKIP_FIRST_N, EntryDetector.mk.injEq, dir_long_ne_short, dir_short_ne_long]

theorem traceStep3 :
    EntryDetector.processCandle (warmState 2 [warmBar1, warmBar2]) warmBar3 2010 2000 =
      (warmState 3 [warmBar1, warmBar2, warmBar3], none) := by
  norm_num [EntryDetector.processCandle, warmState, warmBar1, warmBar2, warmBar3, mkBar,
    SKIP_FIRST_N, EntryDetector.mk.injEq, dir_long_ne_short, dir_short_ne_long]

theorem traceStep4 :
    EntryDetector.processCandle (warmState 3 [warmBar1, warmBar2, warmBar3]) warmBar4
      2010 2000 = (warmState 4 [warmBar1, warmBar2, warmBar3, warmBar4], none) := by
  norm_num [EntryDetector.processCandle, warmState, warmBar1, warmBar2, warmBar3,
    warmBar4, mkBar, SKIP_FIRST_N, EntryDetector.mk.injEq, dir_long_ne_short, dir_short_ne_long]

theorem traceStep5 :
    EntryDetector.processCandle (warmState 4 [warmBar1, warmBar2, warmBar3, warmBar4])
      warmBar5 2010 2000 = (traceState5, none) := by
  norm_num [EntryDetector.processCandle, warmState, traceState5, warmBar1, warmBar2,
    warmBar3, warmBar4, warmBar5, mkBar, SKIP_FIRST_N, EntryDetector.mk.injEq, dir_long_ne_short, dir_short_ne_long]

theorem traceStep6 :
    EntryDetector.processCandle traceState5 breakoutBar 2010 2000 =
      (traceState6, none) := by
  norm_num [EntryDetector.processCandle, EntryDetector.checkForBreakout,
    EntryDetector.checkForFvg, warmState, traceState5, traceState6, warmBar1, warmBar2,
    warmBar3, warmBar4, warmBar5, breakoutBar, mkBar, SKIP_FIRST_N, FVG_LOOKBACK,
    EntryDetector.mk.injEq, dir_long_ne_short, dir_short_ne_long]

theorem traceStep7 :
    EntryDetector.processCandle traceState6 retestBar 2010 2000 =
      (traceState7, none) := by
  norm_num [EntryDetector.processCandle, EntryDetector.checkForRetest, warmState,
    traceState6, traceState7, warmBar1, warmBar2, warmBar3, warmBar4, warmBar5,
    breakoutBar, retestBar, mkBar, SKIP_FIRST_N, FVG_LOOKBACK, RETEST_PCT,
    EntryDetector.mk.injEq, dir_long_ne_short, dir_short_ne_long]

theorem traceStep8 :
    EntryDetector.processCandle traceState7 confirmBar 2010 2000 =
      (traceState8, some traceSignal) := by
  norm_num [EntryDetector.processCandle, EntryDetector.checkForConfirmation,
    EntryDetector.generateEntrySignal, warmState, traceState6, traceState7, traceState8,
    traceSignal, warmBar1, warmBar2, warmBar3, warmBar4, warmBar5, breakoutBar,
    retestBar, confirmBar, mkBar, SKIP_FIRST_N, FVG_LOOKBACK, RETEST_PCT,
    EntryDetector.mk.injEq, Signal.mk.injEq, dir_long_ne_short, dir_short_ne_long]

theorem traceStep9 :
    EntryDetector.processCandle traceState8 idleBar9 2010 2000 =
      (traceState9, some traceSignal) := by
  norm_num [EntryDetector.processCandle, warmState, traceState6, traceState7,
    traceState8, traceState9, traceSignal, warmBar1, warmBar2, warmBar3, warmBar4,
    warmBar5, breakoutBar, retestBar, confirmBar, idleBar9, mkBar, SKIP_FIRST_N,
    EntryDetector.mk.injEq, dir_long_ne_short, dir_short_ne_long]

theorem traceStep10 :
    EntryDetector.processCandle traceState9 idleBar10 2010 2000 =
      (traceState10, none) := by
  norm_num [EntryDetector.processCandle, warmState, traceState6, traceState7,
    traceState8, traceState9, traceState10, traceSignal, warmBar1, warmBar2, warmBar3,
    warmBar4, warmBar5, breakoutBar, retestBar, confirmBar, idleBar9, idleBar10, mkBar,
    SKIP_FIRST_N, EntryDetector.mk.injEq, dir_long_ne_short, dir_short_ne_long]

/-- C1: the exactly-once delivery claim is false on the code.  On the
concrete trace `tradeTrace` (warm-up, long breakout, retest,
displacement confirmation), the confirming call (index 7) returns the
freshly built signal without marking it delivered, and the next call
(index 8) returns the identical non-null signal again; only from the
call after that does the detector return null.  So the detector
returns a non-null signal on two distinct calls. -/
theorem processCandle_returns_signal_on_two_distinct_calls :
    (runDetector EntryDetector.reset tradeTrace 2010 2000).2.getD 7 none
        = some traceSignal ∧
    (runDetector EntryDetector.reset tradeTrace 2010 2000).2.getD 8 none
        = some traceSignal ∧
    (runDetector EntryDetector.reset tradeTrace 2010 2000).2.getD 9 none = none := by
  simp only [runDetector, tradeTrace, traceStep1, traceStep2, traceStep3, traceStep4,
    traceStep5, traceStep6, traceStep7, traceStep8, traceStep9, traceStep10]
  simp


/-! ## Lemmas about `listMax` / `listMin` -/

theorem listMax_mem (l : List ℚ) (h : l ≠ []) : listMax l ∈ l := by
  induction l with
  | nil => exact absurd rfl h
  | cons a t ih =>
    cases t with
    | nil => simp [listMax]
    | cons b t2 =>
      rw [listMax]
      rcases max_cases a (listMax (b :: t2)) with ⟨heq, _⟩ | ⟨heq, _⟩
      · rw [heq]; exact List.mem_cons_self _ _
      · rw [heq]; exact List.mem_cons_of_mem _ (ih (by simp))

theorem le_listMax (l : List ℚ) (x : ℚ) (hx : x ∈ l) : x ≤ listMax l := by
  induction l with
  | nil => simp at hx
  | cons a t ih =>
    cases t with
    | nil =>
      simp at hx; simp [listMax, hx]
    | cons b t2 =>
      rw [listMax]
      rcases List.mem_cons.mp hx with h | h
      · exact h ▸ le_max_left _ _
      · exact le_trans (ih h) (le_max_right _ _)

theorem listMin_mem (l : List ℚ) (h : l ≠ []) : listMin l ∈ l := by
  induction l with
  | nil => exact absurd rfl h
  | cons a t ih =>
    cases t with
    | nil => simp [listMin]
    | cons b t2 =>
      rw [listMin]
      rcases min_cases a (listMin (b :: t2)) with ⟨heq, _⟩ | ⟨heq, _⟩
      · rw [heq]; exact List.mem_cons_self _ _
      · rw [heq]; exact List.mem_cons_of_mem _ (ih (by simp))

theorem listMin_le (l : List ℚ) (x : ℚ) (hx : x ∈ l) : listMin l ≤ x := by
  induction l with
  | nil => simp at hx
  | cons a t ih =>
    cases t with
    | nil =>
      simp at hx; simp [listMin, hx]
    | cons b t2 =>
      rw [listMin]
      rcases List.mem_cons.mp hx with h | h
      · exact h ▸ min_le_left _ _
      · exact le_trans (min_le_right _ _) (ih h)

theorem pushMax_of_lt (cap : Nat) (xs : List Candle) (x : Candle)
    (h : xs.length < cap) : pushMax cap xs x = xs ++ [x] := by
  unfold pushMax
  rw [if_neg]
  simp only [List.length_append, List.length_cons, List.length_nil]
  omega


/-- C2: every aggregate 5-minute bar the aggregator emits has
open = first constituent's open, close = last constituent's close,
high = max of constituent highs, low = min of constituent lows,
volume = sum of constituent volumes, and timestamp = first
constituent's timestamp, where the constituents are the last five
closed base bars. -/
theorem aggregate_bar_fields (c1 c5 : List Candle) (b : Candle)
    (hcap : c5.length < MAX_5M_CANDLES)
    (h : update5mCandles c1 c5 = c5 ++ [b]) :
    5 ≤ c1.length ∧
    b.open_price = ((c1.drop (c1.length - 5)).headD dummyCandle).open_price ∧
    b.close = ((c1.drop (c1.length - 5)).getLastD dummyCandle).close ∧
    b.timestamp = ((c1.drop (c1.length - 5)).headD dummyCandle).timestamp ∧
    b.high ∈ (c1.drop (c1.length - 5)).map (·.high) ∧
    (∀ q ∈ (c1.drop (c1.length - 5)).map (·.high), q ≤ b.high) ∧
    b.low ∈ (c1.drop (c1.length - 5)).map (·.low) ∧
    (∀ q ∈ (c1.drop (c1.length - 5)).map (·.low), b.low ≤ q) ∧
    b.volume = ((c1.drop (c1.length - 5)).map (·.volume)).sum := by
  unfold update5mCandles at h
  by_cases h5 : c1.length < 5
  · rw [if_pos h5] at h
    have := congrArg List.length h
    simp at this
  rw [if_neg h5] at h
  by_cases h4 : minuteOf (c1.getLastD dummyCandle).timestamp % 5 = 4
  swap
  · rw [if_neg h4] at h
    have := congrArg List.length h
    simp at this
  rw [if_pos h4] at h
  by_cases h0 :
      minuteOf ((c1.drop (c1.length - 5)).headD dummyCandle).timestamp % 5 = 0
  swap
  · rw [if_neg h0] at h
    have := congrArg List.length h
    simp at this
  rw [if_pos h0, pushMax_of_lt _ _ _ hcap] at h
  have hb : b = mk5mCandle (c1.drop (c1.length - 5)) := by
    have := List.append_cancel_left h
    simp at this
    exact this.symm
  have hlen : (c1.drop (c1.length - 5)).length = 5 := by
    rw [List.length_drop]; omega
  have hne : c1.drop (c1.length - 5) ≠ [] := by
    intro hnil; rw [hnil] at hlen; simp at hlen
  subst hb
  refine ⟨by omega, rfl, rfl, rfl, ?_, ?_, ?_, ?_, rfl⟩
  · exact listMax_mem _ (by simp; omega)
  · intro q hq; exact le_listMax _ q hq
  · exact listMin_mem _ (by simp; omega)
  · intro q hq; exact listMin_le _ q hq

/-- Witness for C2: the gapped block emits an aggregate whose fields
satisfy the aggregate equations. -/
theorem aggregate_bar_fields_witness :
    5 ≤ gapBlockBars.length ∧
    gapAggregate.open_price =
      ((gapBlockBars.drop (gapBlockBars.length - 5)).headD dummyCandle).open_price ∧
    gapAggregate.close =
      ((gapBlockBars.drop (gapBlockBars.length - 5)).getLastD dummyCandle).close ∧
    gapAggregate.timestamp =
      ((gapBlockBars.drop (gapBlockBars.length - 5)).headD dummyCandle).timestamp ∧
    gapAggregate.high ∈ (gapBlockBars.drop (gapBlockBars.length - 5)).map (·.high) ∧
    (∀ q ∈ (gapBlockBars.drop (gapBlockBars.length - 5)).map (·.high),
      q ≤ gapAggregate.high) ∧
    gapAggregate.low ∈ (gapBlockBars.drop (gapBlockBars.length - 5)).map (·.low) ∧
    (∀ q ∈ (gapBlockBars.drop (gapBlockBars.length - 5)).map (·.low),
      gapAggregate.low ≤ q) ∧
    gapAggregate.volume =
      ((gapBlockBars.drop (gapBlockBars.length - 5)).map (·.volume)).sum :=
  aggregate_bar_fields gapBlockBars [] gapAggregate (by decide) (by decide)


/-- C10: a 5-minute bar is appended exactly when there are at least
five closed base bars, the newest base bar's timestamp minute is
4 mod 5, and the fifth-most-recent base bar's timestamp minute is
0 mod 5; the interior bars are never checked, so the gapped block
`gapBlockBars` (covering 09:30-09:44 wall clock in five bars) still
produces an aggregate built from those five bars. -/
theorem fiveMinute_emit_condition :
    (∀ c1 c5 : List Candle, c5.length < MAX_5M_CANDLES →
      ((∃ b, update5mCandles c1 c5 = c5 ++ [b]) ↔
        (5 ≤ c1.length ∧
         minuteOf (c1.getLastD dummyCandle).timestamp % 5 = 4 ∧
         minuteOf ((c1.drop (c1.length - 5)).headD dummyCandle).timestamp % 5 = 0))) ∧
    update5mCandles gapBlockBars [] = [gapAggregate] := by
  constructor
  · intro c1 c5 hcap
    unfold update5mCandles
    by_cases h5 : c1.length < 5
    · rw [if_pos h5]
      apply iff_of_false
      · rintro ⟨b, hb⟩
        have := congrArg List.length hb
        simp at this
      · rintro ⟨hlen, -⟩; omega
    rw [if_neg h5]
    by_cases h4 : minuteOf (c1.getLastD dummyCandle).timestamp % 5 = 4
    swap
    · rw [if_neg h4]
      apply iff_of_false
      · rintro ⟨b, hb⟩
        have := congrArg List.length hb
        simp at this
      · rintro ⟨-, hm, -⟩; exact h4 hm
    rw [if_pos h4]
    by_cases h0 :
        minuteOf ((c1.drop (c1.length - 5)).headD dummyCandle).timestamp % 5 = 0
    · rw [if_pos h0]
      apply iff_of_true
      · exact ⟨_, pushMax_of_lt _ _ _ hcap⟩
      · exact ⟨by omega, h4, h0⟩
    · rw [if_neg h0]
      apply iff_of_false
      · rintro ⟨b, hb⟩
        have := congrArg List.length hb
        simp at this
      · rintro ⟨-, -, hm⟩; exact h0 hm
  · decide

/-- Witness for C10: on the gapped block the append condition holds
and a bar is indeed appended. -/
theorem fiveMinute_emit_condition_witness :
    ∃ b, update5mCandles gapBlockBars [] = [] ++ [b] :=
  (fiveMinute_emit_condition.1 gapBlockBars [] (by decide)).mpr (by decide)


/-! ## Session state machine lemmas -/

theorem stateRank_le_four (st : SessionState) : stateRank st ≤ 4 := by
  cases st <;> simp [stateRank]

theorem update_step_mono (m : SessionSM) (t d : Nat) (oc : List Candle)
    (h : m.current_date = some d) :
    stateRank m.state ≤ stateRank (m.update t d oc).state ∧
    (m.update t d oc).current_date = some d := by
  obtain ⟨st, ohf, olf, oot, oct, tt, cd⟩ := m
  simp only at h
  subst h
  cases st <;>
    simp [SessionSM.update, SessionSM.handlePreOr, SessionSM.handleOrBuilding,
      SessionSM.handleOrLocked, SessionSM.handlePostOrTrading, SessionSM.transitionTo,
      ENABLE_OR_FILTER, stateRank] <;>
    split_ifs <;> simp [stateRank]

theorem markTradeTaken_state (m : SessionSM) :
    m.markTradeTaken.state = SessionState.SESSION_CLOSED ∧
    m.markTradeTaken.current_date = m.current_date := by
  simp [SessionSM.markTradeTaken, SessionSM.transitionTo]

theorem runOps_mono (d : Nat) (ops : List SessionOp) :
    ∀ m : SessionSM, m.current_date = some d →
      stateRank m.state ≤ stateRank (runSessionOps d m ops).state ∧
      (runSessionOps d m ops).current_date = some d := by
  induction ops with
  | nil => intro m h; simpa [runSessionOps]
  | cons op rest ih =>
    intro m h
    have hstep : runSessionOps d m (op :: rest) =
        runSessionOps d (applySessionOp d m op) rest := by
      simp [runSessionOps]
    rw [hstep]
    cases op with
    | upd t oc =>
      have step := update_step_mono m t d oc h
      have tail := ih (m.update t d oc) step.2
      exact ⟨le_trans step.1 tail.1, tail.2⟩
    | mark =>
      have hmark := markTradeTaken_state m
      have tail := ih m.markTradeTaken (hmark.2.trans h)
      refine ⟨le_trans ?_ tail.1, tail.2⟩
      rw [hmark.1]
      exact stateRank_le_four _

theorem update_closed_state (m : SessionSM) (t d : Nat) (oc : List Candle)
    (hd : m.current_date = some d) (hc : m.state = SessionState.SESSION_CLOSED) :
    m.update t d oc = m := by
  obtain ⟨st, ohf, olf, oot, oct, tt, cd⟩ := m
  simp only at hd hc
  subst hd; subst hc
  simp [SessionSM.update]

theorem canTrade_of_closed (m : SessionSM)
    (hc : m.state = SessionState.SESSION_CLOSED) : m.canTrade = false := by
  simp [SessionSM.canTrade, hc]

theorem closed_absorbing (d : Nat) (ops : List SessionOp) :
    ∀ m : SessionSM, m.current_date = some d →
      m.state = SessionState.SESSION_CLOSED →
      (runSessionOps d m ops).state = SessionState.SESSION_CLOSED ∧
      (runSessionOps d m ops).current_date = some d := by
  induction ops with
  | nil => intro m hd hc; simpa [runSessionOps] using ⟨hc, hd⟩
  | cons op rest ih =>
    intro m hd hc
    have hstep : runSessionOps d m (op :: rest) =
        runSessionOps d (applySessionOp d m op) rest := by
      simp [runSessionOps]
    rw [hstep]
    cases op with
    | upd t oc =>
      rw [show applySessionOp d m (SessionOp.upd t oc) = m.update t d oc from rfl,
        update_closed_state m t d oc hd hc]
      exact ih m hd hc
    | mark =>
      have hmark := markTradeTaken_state m
      exact ih m.markTradeTaken (hmark.2.trans hd) hmark.1

/-- C3: `can_trade()` is true exactly when the state is
POST_OR_TRADING, no trade has been taken, and both OR bounds are set. -/
theorem canTrade_iff (m : SessionSM) :
    m.canTrade = true ↔
      (m.state = SessionState.POST_OR_TRADING ∧ m.trade_taken = false ∧
       (∃ h, m.or_high = some h) ∧ (∃ l, m.or_low = some l)) := by
  simp [SessionSM.canTrade, Bool.and_eq_true, Option.isSome_iff_exists, and_assoc]

/-- Witness for C3 at a concrete machine with OR bounds 2010/2000. -/
theorem canTrade_iff_witness :
    SessionSM.canTrade
      { state := SessionState.POST_OR_TRADING, or_high := some 2010,
        or_low := some 2000, or_open_time := none, or_close_time := none,
        trade_taken := false, current_date := some 0 } = true :=
  (canTrade_iff _).mpr ⟨rfl, rfl, ⟨2010, rfl⟩, ⟨2000, rfl⟩⟩


/-- C4: within a single date the session state only moves forward in
the rank order PRE_OR < OR_BUILDING < OR_LOCKED < POST_OR_TRADING <
SESSION_CLOSED under every sequence of `update` and
`mark_trade_taken` calls, and a date change makes `update` behave as
on the reset machine: state PRE_OR with OR bounds and trade flag
cleared. -/
theorem session_state_monotonic_per_date :
    (∀ (d : Nat) (ops : List SessionOp) (m : SessionSM), m.current_date = some d →
      stateRank m.state ≤ stateRank (runSessionOps d m ops).state) ∧
    (∀ (m : SessionSM) (t d : Nat) (oc : List Candle), m.current_date ≠ some d →
      m.update t d oc = (m.resetForNewDay d).update t d oc ∧
      (m.resetForNewDay d).state = SessionState.PRE_OR ∧
      (m.resetForNewDay d).or_high = none ∧
      (m.resetForNewDay d).or_low = none ∧
      (m.resetForNewDay d).trade_taken = false) := by
  constructor
  · intro d ops m h
    exact (runOps_mono d ops m h).1
  · intro m t d oc h
    refine ⟨?_, rfl, rfl, rfl, rfl⟩
    unfold SessionSM.update
    rw [if_pos h, if_neg (by simp [SessionSM.resetForNewDay])]

/-- Witness for C4: a concrete run of one update and one
mark-trade-taken on a dated machine. -/
theorem session_state_monotonic_per_date_witness :
    stateRank
      (SessionSM.state
        { state := SessionState.OR_LOCKED, or_high := some 2010, or_low := some 2000,
          or_open_time := none, or_close_time := none, trade_taken := false,
          current_date := some 3 }) ≤
    stateRank
      (runSessionOps 3
        { state := SessionState.OR_LOCKED, or_high := some 2010, or_low := some 2000,
          or_open_time := none, or_close_time := none, trade_taken := false,
          current_date := some 3 }
        [SessionOp.upd 600 [], SessionOp.mark]).state :=
  session_state_monotonic_per_date.1 3 [SessionOp.upd 600 [], SessionOp.mark] _ rfl

/-- C5: with the OR filter enabled, an `update` at or after the lock
time in OR_BUILDING with at least one OR candle and a computed range
below `MIN_OR_RANGE` or above `MAX_OR_RANGE` moves the session
directly to SESSION_CLOSED, and for every same-date continuation the
state stays SESSION_CLOSED with `can_trade()` false. -/
theorem or_range_filter_skips_day (m : SessionSM) (t d : Nat) (oc : List Candle)
    (hdate : m.current_date = some d) (hstate : m.state = SessionState.OR_BUILDING)
    (ht : OR_LOCK_MIN ≤ t) (hne : oc ≠ [])
    (hout : listMax (oc.map (·.high)) - listMin (oc.map (·.low)) < MIN_OR_RANGE ∨
            listMax (oc.map (·.high)) - listMin (oc.map (·.low)) > MAX_OR_RANGE) :
    (m.update t d oc).state = SessionState.SESSION_CLOSED ∧
    ∀ ops : List SessionOp,
      (runSessionOps d (m.update t d oc) ops).state = SessionState.SESSION_CLOSED ∧
      SessionSM.canTrade (runSessionOps d (m.update t d oc) ops) = false := by
  have hlen : 0 < oc.length := List.length_pos.mpr hne
  have hclosed : (m.update t d oc).state = SessionState.SESSION_CLOSED := by
    obtain ⟨st, ohf, olf, oot, oct, tt, cd⟩ := m
    simp only at hdate hstate
    subst hdate; subst hstate
    simp only [SessionSM.update, SessionSM.handleOrBuilding, SessionSM.transitionTo,
      ENABLE_OR_FILTER, ne_eq, not_true_eq_false, if_false, if_true, ite_false,
      ite_true]
    rw [if_pos ht, if_pos hlen]
    split_ifs with h1 h2
    · rfl
    · rfl
    · rcases hout with hout | hout
      · exact absurd hout h1
      · exact absurd hout h2
  have hdate2 : (m.update t d oc).current_date = some d :=
    (update_step_mono m t d oc hdate).2
  refine ⟨hclosed, fun ops => ?_⟩
  have habs := closed_absorbing d ops _ hdate2 hclosed
  exact ⟨habs.1, canTrade_of_closed _ habs.1⟩

/-- Witness for C5: a single OR bar with range 6 (below the minimum
of 12) closes the session and keeps `can_trade()` false. -/
theorem or_range_filter_skips_day_witness :
    (SessionSM.update
      { state := SessionState.OR_BUILDING, or_high := none, or_low := none,
        or_open_time := none, or_close_time := none, trade_taken := false,
        current_date := some 3 } 575 3
      [{ timestamp := 570, open_price := 2003, high := 2006, low := 2000,
         close := 2004, volume := 5 }]).state = SessionState.SESSION_CLOSED :=
  (or_range_filter_skips_day _ 575 3 _ rfl rfl (le_refl _) (by simp)
    (Or.inl (by norm_num [listMax, listMin, MIN_OR_RANGE]))).1


/-! ## Entry detector lemmas -/

/-- C6: the invalidation reset clears exactly the breakout / retest /
confirmation progress fields (including the pending signal and its
delivery flag) while leaving the sliding candle history, the
bars-since-lock counter and the stored OR bounds unchanged. -/
theorem resetAfterInvalidation_frame (d : EntryDetector) :
    d.resetAfterInvalidation.candle_history = d.candle_history ∧
    d.resetAfterInvalidation.candles_since_or_lock = d.candles_since_or_lock ∧
    d.resetAfterInvalidation.or_high = d.or_high ∧
    d.resetAfterInvalidation.or_low = d.or_low ∧
    d.resetAfterInvalidation.or_range = d.or_range ∧
    d.resetAfterInvalidation.breakout_seen = false ∧
    d.resetAfterInvalidation.breakout_direction = none ∧
    d.resetAfterInvalidation.breakout_time = none ∧
    d.resetAfterInvalidation.breakout_candle = none ∧
    d.resetAfterInvalidation.retest_active = false ∧
    d.resetAfterInvalidation.retest_candle = none ∧
    d.resetAfterInvalidation.retest_start_idx = none ∧
    d.resetAfterInvalidation.confirmed = false ∧
    d.resetAfterInvalidation.invalidated = false ∧
    d.resetAfterInvalidation.entry_signal = none ∧
    d.resetAfterInvalidation.signal_delivered = false := by
  simp [EntryDetector.resetAfterInvalidation]


/-- C8: every Model-1 signal with a recorded retest bar has
entry = entry-bar close, stop = retest low (long) / high (short) with
the 0.50 fallback when on the wrong side of entry, and target =
entry plus/minus the reward multiple (2) times |entry - stop|; for
Model 2 or a missing retest bar, the stop distance is 0.8 times the
mean bar range over the most recent at most 14 history bars, with
stop and target placed symmetrically by that distance and twice it. -/
theorem entry_signal_construction :
    (∀ (d : EntryDetector) (c rc : Candle), d.retest_candle = some rc →
      d.breakout_direction = some Dir.long →
      ∃ s, (d.generateEntrySignal c 1).entry_signal = some s ∧
        s.entry_price = c.close ∧
        s.sl = (if rc.low ≥ c.close then c.close - 1/2 else rc.low) ∧
        s.sl < c.close ∧
        s.tp = c.close + 2 * |c.close - s.sl|) ∧
    (∀ (d : EntryDetector) (c rc : Candle), d.retest_candle = some rc →
      d.breakout_direction = some Dir.short →
      ∃ s, (d.generateEntrySignal c 1).entry_signal = some s ∧
        s.entry_price = c.close ∧
        s.sl = (if rc.high ≤ c.close then c.close + 1/2 else rc.high) ∧
        c.close < s.sl ∧
        s.tp = c.close - 2 * |c.close - s.sl|) ∧
    (∀ (d : EntryDetector) (c : Candle), d.breakout_direction = some Dir.long →
      d.candle_history ≠ [] →
      ∃ s, (d.generateEntrySignal c 2).entry_signal = some s ∧
        s.entry_price = c.close ∧
        s.sl = c.close - atrStopDist d ∧
        s.tp = c.close + 2 * atrStopDist d) ∧
    (∀ (d : EntryDetector) (c : Candle), d.breakout_direction = some Dir.short →
      d.candle_history ≠ [] →
      ∃ s, (d.generateEntrySignal c 2).entry_signal = some s ∧
        s.entry_price = c.close ∧
        s.sl = c.close + atrStopDist d ∧
        s.tp = c.close - 2 * atrStopDist d) ∧
    (∀ (d : EntryDetector) (c : Candle), d.retest_candle = none →
      d.breakout_direction = some Dir.long →
      d.candle_history ≠ [] →
      ∃ s, (d.generateEntrySignal c 1).entry_signal = some s ∧
        s.entry_price = c.close ∧
        s.sl = c.close - atrStopDist d ∧
        s.tp = c.close + 2 * atrStopDist d) := by
  have hatr : ∀ d : EntryDetector,
      (8 : ℚ)/10 *
        ((((if d.candle_history.length ≥ 14 then
              d.candle_history.drop (d.candle_history.length - 14)
            else d.candle_history).map fun x => x.high - x.low).sum) /
          (((if d.candle_history.length ≥ 14 then
              d.candle_history.drop (d.candle_history.length - 14)
            else d.candle_history).length : ℚ))) = atrStopDist d := by
    intro d
    unfold atrStopDist
    by_cases h14 : d.candle_history.length ≥ 14
    · rw [if_pos h14]
    · rw [if_neg h14]
      have : d.candle_history.length - 14 = 0 := by omega
      rw [this, List.drop_zero]
  refine ⟨?_, ?_, ?_, ?_, ?_⟩
  · intro d c rc hrc hdir
    simp only [EntryDetector.generateEntrySignal, hrc, hdir, Option.some.injEq,
      reduceIte]
    refine ⟨_, rfl, rfl, rfl, ?_, ?_⟩
    · split_ifs with hfb
      · linarith
      · linarith [not_le.mp hfb]
    · have hslLt : (if rc.low ≥ c.close then c.close - 1/2 else rc.low) < c.close := by
        split_ifs with hfb
        · linarith
        · linarith [not_le.mp hfb]
      rw [abs_of_pos (by linarith)]
  · intro d c rc hrc hdir
    simp only [EntryDetector.generateEntrySignal, hrc, hdir, Option.some.injEq,
      dir_short_ne_long, reduceIte]
    refine ⟨_, rfl, rfl, rfl, ?_, ?_⟩
    · split_ifs with hfb
      · linarith
      · linarith [not_le.mp hfb]
    · have hslGt : c.close < (if rc.high ≤ c.close then c.close + 1/2 else rc.high) := by
        split_ifs with hfb
        · linarith
        · linarith [not_le.mp hfb]
      rw [abs_of_neg (by linarith)]
      show c.close - 2 * ((if rc.high ≤ c.close then c.close + 1/2 else rc.high)
          - c.close) =
        c.close - 2 * -(c.close - (if rc.high ≤ c.close then c.close + 1/2
          else rc.high))
      ring
  · intro d c hdir hne
    simp only [EntryDetector.generateEntrySignal, hdir, Option.some.injEq, reduceIte]
    exact ⟨_, rfl, rfl, by rw [← hatr d], by rw [← hatr d]⟩
  · intro d c hdir hne
    simp only [EntryDetector.generateEntrySignal, hdir, Option.some.injEq,
      dir_short_ne_long, reduceIte]
    exact ⟨_, rfl, rfl, by rw [← hatr d], by rw [← hatr d]⟩
  · intro d c hrc hdir hne
    simp only [EntryDetector.generateEntrySignal, hrc, hdir, Option.some.injEq,
      reduceIte]
    exact ⟨_, rfl, rfl, by rw [← hatr d], by rw [← hatr d]⟩

/-- Witness for C8: the Model-1 long clause applied on the concrete
confirmation state of the trade trace. -/
theorem entry_signal_construction_witness :
    ∃ s, (EntryDetector.generateEntrySignal traceState7 confirmBar 1).entry_signal
        = some s ∧
      s.entry_price = confirmBar.close ∧
      s.sl = (if retestBar.low ≥ confirmBar.close then confirmBar.close - 1/2
              else retestBar.low) ∧
      s.sl < confirmBar.close ∧
      s.tp = confirmBar.close + 2 * |confirmBar.close - s.sl| :=
  entry_signal_construction.1 traceState7 confirmBar retestBar rfl rfl


theorem generateEntrySignal_invalidated (d : EntryDetector) (c : Candle) (m : Nat) :
    (d.generateEntrySignal c m).invalidated = d.invalidated := rfl

theorem checkForBreakout_invalidated (d : EntryDetector) (c : Candle) (oh ol : ℚ) :
    (d.checkForBreakout c oh ol).invalidated = d.invalidated := by
  unfold EntryDetector.checkForBreakout
  split_ifs <;> rfl

theorem checkForRetest_invalidated (d : EntryDetector) (c : Candle) (oh ol r : ℚ)
    (h : d.invalidated = false) : (d.checkForRetest c oh ol r).invalidated = false := by
  unfold EntryDetector.checkForRetest
  dsimp only
  split_ifs <;> first | rfl | exact h

theorem checkForConfirmation_invalidated (d : EntryDetector) (c : Candle) (oh ol r : ℚ)
    (h : d.invalidated = false) :
    (d.checkForConfirmation c oh ol r).invalidated = false := by
  unfold EntryDetector.checkForConfirmation
  split
  · exact h
  · dsimp only
    split_ifs <;> first | rfl | exact h

theorem checkForFvg_invalidated (d : EntryDetector) :
    d.checkForFvg.invalidated = d.invalidated := by
  unfold EntryDetector.checkForFvg
  split
  · rfl
  · split
    · rfl
    · dsimp only
      split
      · rw [generateEntrySignal_invalidated]
      · rfl

theorem processCandle_invalidated_false (d : EntryDetector) (c : Candle) (oh ol : ℚ)
    (h : d.invalidated = false) : (d.processCandle c oh ol).1.invalidated = false := by
  unfold EntryDetector.processCandle
  dsimp only
  split_ifs <;>
    first
      | exact h
      | (rw [checkForFvg_invalidated, checkForBreakout_invalidated]; exact h)
      | (rw [checkForBreakout_invalidated]; exact h)
      | (rw [checkForFvg_invalidated]
         first
           | exact h
           | exact checkForRetest_invalidated _ _ _ _ _ h
           | exact checkForConfirmation_invalidated _ _ _ _ _ h)
      | exact checkForRetest_invalidated _ _ _ _ _ h
      | exact checkForConfirmation_invalidated _ _ _ _ _ h


/-- C9: a `process_candle` call that triggers invalidation returns
null, and immediately afterwards the invalidated flag is false and no
pending signal is stored; moreover every call preserves a false
invalidated flag, so the stored-outcome branch is never entered on
account of invalidation. -/
theorem invalidation_never_delivered :
    (∀ (d : EntryDetector) (c : Candle) (oh ol : ℚ),
      triggersInvalidation d c oh ol →
      (d.processCandle c oh ol).2 = none ∧
      (d.processCandle c oh ol).1.invalidated = false ∧
      (d.processCandle c oh ol).1.entry_signal = none ∧
      (d.processCandle c oh ol).1.breakout_seen = false) ∧
    (∀ (d : EntryDetector) (c : Candle) (oh ol : ℚ), d.invalidated = false →
      (d.processCandle c oh ol).1.invalidated = false) := by
  constructor
  · intro d c oh ol h
    obtain ⟨hskip, hconf, hinv, hbs, hcase⟩ := h
    have hns : ¬ (d.candles_since_or_lock + 1 ≤ SKIP_FIRST_N) := by omega
    unfold EntryDetector.processCandle
    dsimp only
    rw [if_neg hns, if_neg (by simp [hconf, hinv])]
    rcases hcase with ⟨hra, ⟨hdir, hcl⟩ | ⟨hdir, hcl⟩⟩ |
      ⟨hra, ⟨rc, hrc⟩, ⟨hdir, hcl⟩ | ⟨hdir, hcl⟩⟩
    · simp [hbs, hra, EntryDetector.checkForRetest,
        EntryDetector.resetAfterInvalidation, hdir, hcl]
    · simp [hbs, hra, EntryDetector.checkForRetest,
        EntryDetector.resetAfterInvalidation, hdir, hcl, dir_short_ne_long]
    · simp [hbs, hra, hconf, EntryDetector.checkForConfirmation,
        EntryDetector.resetAfterInvalidation, hrc, hdir, hcl]
    · simp [hbs, hra, hconf, EntryDetector.checkForConfirmation,
        EntryDetector.resetAfterInvalidation, hrc, hdir, hcl, dir_short_ne_long]
  · intro d c oh ol h
    exact processCandle_invalidated_false d c oh ol h

/-- Witness for C9: the concrete retest-stage state of the trade
trace invalidated by a bar closing back inside the OR. -/
theorem invalidation_never_delivered_witness :
    (EntryDetector.processCandle traceState6 (mkBar 7 2005 2005 2005 2005)
        2010 2000).2 = none ∧
    (EntryDetector.processCandle traceState6 (mkBar 7 2005 2005 2005 2005)
        2010 2000).1.invalidated = false ∧
    (EntryDetector.processCandle traceState6 (mkBar 7 2005 2005 2005 2005)
        2010 2000).1.entry_signal = none ∧
    (EntryDetector.processCandle traceState6 (mkBar 7 2005 2005 2005 2005)
        2010 2000).1.breakout_seen = false :=
  invalidation_never_delivered.1 traceState6 (mkBar 7 2005 2005 2005 2005) 2010 2000
    ⟨by norm_num [traceState6, warmState, SKIP_FIRST_N], rfl, rfl, rfl,
     Or.inl ⟨rfl, Or.inl ⟨rfl, by norm_num [mkBar]⟩⟩⟩


theorem generateEntrySignal_retest_active (d : EntryDetector) (c : Candle) (m : Nat) :
    (d.generateEntrySignal c m).retest_active = d.retest_active := rfl

theorem checkForFvg_retest_active (d : EntryDetector) :
    d.checkForFvg.retest_active = d.retest_active := by
  unfold EntryDetector.checkForFvg
  split
  · rfl
  · split
    · rfl
    · dsimp only
      split
      · rw [generateEntrySignal_retest_active]
      · rfl

theorem length_after_append_pos (h : List Candle) (c : Candle) :
    0 < (if (h ++ [c]).length > 50 then (h ++ [c]).drop 1 else h ++ [c]).length := by
  split_ifs with hlen
  · simp only [List.length_drop, List.length_append, List.length_cons,
      List.length_nil] at *
    omega
  · simp only [List.length_append, List.length_cons, List.length_nil]
    omega



theorem checkForBreakout_long_eq (d : EntryDetector) (c : Candle) (oh ol : ℚ)
    (hcl : c.close > oh) :
    d.checkForBreakout c oh ol =
      { d with breakout_seen := true, breakout_direction := some Dir.long
               breakout_time := some c.timestamp
               breakout_candle := some (c, d.candle_history.length - 1) } := by
  unfold EntryDetector.checkForBreakout
  rw [if_pos hcl]

theorem checkForBreakout_short_eq (d : EntryDetector) (c : Candle) (oh ol : ℚ)
    (hng : ¬ c.close > oh) (hcl : c.close < ol) :
    d.checkForBreakout c oh ol =
      { d with breakout_seen := true, breakout_direction := some Dir.short
               breakout_time := some c.timestamp
               breakout_candle := some (c, d.candle_history.length - 1) } := by
  unfold EntryDetector.checkForBreakout
  rw [if_neg hng, if_pos hcl]

theorem checkForRetest_long_zone_eq (d : EntryDetector) (c : Candle) (oh ol r : ℚ)
    (hdir : d.breakout_direction = some Dir.long) (hcl : ¬ c.close < oh) :
    d.checkForRetest c oh ol r =
      (if c.low ≤ oh + r * RETEST_PCT ∧ c.high ≥ oh - r * RETEST_PCT then
        { d with retest_active := true, retest_candle := some c
                 retest_start_idx := some (d.candle_history.length - 1) }
      else d) := by
  unfold EntryDetector.checkForRetest
  dsimp only
  rw [hdir]
  simp only [Option.some.injEq, dir_long_ne_short, eq_self_iff_true, true_and,
    false_and, and_true, and_false, if_true, if_false, ite_true, ite_false,
    reduceIte]
  rw [if_neg hcl]

theorem sub_one_add_ten_not_le (n : Nat) : (n - 1 + 10 ≤ n) = False :=
  eq_false (by omega)

theorem breakout_while_searching_long (d : EntryDetector) (c : Candle) (oh ol : ℚ)
    (hskip : SKIP_FIRST_N < d.candles_since_or_lock + 1)
    (hconf : d.confirmed = false) (hinv : d.invalidated = false)
    (hbs : d.breakout_seen = false) (hcl : c.close > oh) :
    (d.processCandle c oh ol).1.breakout_seen = true ∧
    (d.processCandle c oh ol).1.breakout_direction = some Dir.long := by
  unfold EntryDetector.processCandle
  dsimp only
  rw [if_neg (by omega), if_neg (by simp [hconf, hinv])]
  simp [hbs, EntryDetector.checkForBreakout, hcl, sub_one_add_ten_not_le]

theorem breakout_while_searching_short (d : EntryDetector) (c : Candle) (oh ol : ℚ)
    (hskip : SKIP_FIRST_N < d.candles_since_or_lock + 1)
    (hconf : d.confirmed = false) (hinv : d.invalidated = false)
    (hbs : d.breakout_seen = false) (hol : ol ≤ oh) (hcl : c.close < ol) :
    (d.processCandle c oh ol).1.breakout_seen = true ∧
    (d.processCandle c oh ol).1.breakout_direction = some Dir.short := by
  have hno : ¬ (oh < c.close) := not_lt.mpr (le_trans (le_of_lt hcl) hol)
  unfold EntryDetector.processCandle
  dsimp only
  rw [if_neg (by omega), if_neg (by simp [hconf, hinv])]
  simp [hbs, EntryDetector.checkForBreakout, hcl, hno, sub_one_add_ten_not_le]

theorem retest_zone_iff_long (d : EntryDetector) (c : Candle) (oh ol : ℚ)
    (hskip : SKIP_FIRST_N < d.candles_since_or_lock + 1)
    (hconf : d.confirmed = false) (hinv : d.invalidated = false)
    (hbs : d.breakout_seen = true) (hra : d.retest_active = false)
    (hdir : d.breakout_direction = some Dir.long) (hcl : ¬ c.close < oh) :
    ((d.processCandle c oh ol).1.retest_active = true ↔
      (c.low ≤ oh + (oh - ol) * RETEST_PCT ∧
       oh - (oh - ol) * RETEST_PCT ≤ c.high)) := by
  unfold EntryDetector.processCandle
  dsimp only
  rw [if_neg (by omega), if_neg (by simp [hconf, hinv])]
  simp [checkForRetest_long_zone_eq, hbs, hra, hdir, hcl, hconf]
  by_cases hz : c.low ≤ oh + (oh - ol) * RETEST_PCT ∧ oh ≤ c.high + (oh - ol) * RETEST_PCT
  · simp [hz]
  · simp [hz, hra, checkForFvg_retest_active,
      apply_ite (fun x : EntryDetector => x.retest_active)]

theorem checkForRetest_short_zone_eq (d : EntryDetector) (c : Candle) (oh ol r : ℚ)
    (hdir : d.breakout_direction = some Dir.short) (hcl : ¬ c.close > ol) :
    d.checkForRetest c oh ol r =
      (if c.high ≥ ol - r * RETEST_PCT ∧ c.low ≤ ol + r * RETEST_PCT then
        { d with retest_active := true, retest_candle := some c
                 retest_start_idx := some (d.candle_history.length - 1) }
      else d) := by
  unfold EntryDetector.checkForRetest
  dsimp only
  rw [hdir]
  simp only [Option.some.injEq, dir_short_ne_long, eq_self_iff_true, true_and,
    false_and, and_true, and_false, if_true, if_false, ite_true, ite_false,
    reduceIte]
  rw [if_neg hcl]

theorem retest_zone_iff_short (d : EntryDetector) (c : Candle) (oh ol : ℚ)
    (hskip : SKIP_FIRST_N < d.candles_since_or_lock + 1)
    (hconf : d.confirmed = false) (hinv : d.invalidated = false)
    (hbs : d.breakout_seen = true) (hra : d.retest_active = false)
    (hdir : d.breakout_direction = some Dir.short) (hcl : ¬ c.close > ol) :
    ((d.processCandle c oh ol).1.retest_active = true ↔
      (ol - (oh - ol) * RETEST_PCT ≤ c.high ∧
       c.low ≤ ol + (oh - ol) * RETEST_PCT)) := by
  unfold EntryDetector.processCandle
  dsimp only
  rw [if_neg (by omega), if_neg (by simp [hconf, hinv])]
  simp [checkForRetest_short_zone_eq, hbs, hra, hdir, hcl, hconf]
  by_cases hz : ol ≤ c.high + (oh - ol) * RETEST_PCT ∧ c.low ≤ ol + (oh - ol) * RETEST_PCT
  · simp [hz]
  · simp [hz, hra, checkForFvg_retest_active,
      apply_ite (fun x : EntryDetector => x.retest_active)]

theorem retest_invalidation_long (d : EntryDetector) (c : Candle) (oh ol : ℚ)
    (hskip : SKIP_FIRST_N < d.candles_since_or_lock + 1)
    (hconf : d.confirmed = false) (hinv : d.invalidated = false)
    (hbs : d.breakout_seen = true) (hra : d.retest_active = false)
    (hdir : d.breakout_direction = some Dir.long) (hcl : c.close < oh) :
    (d.processCandle c oh ol).1.breakout_seen = false ∧
    (d.processCandle c oh ol).1.retest_active = false ∧
    (d.processCandle c oh ol).1.retest_candle = none ∧
    (d.processCandle c oh ol).1.confirmed = false ∧
    (d.processCandle c oh ol).1.invalidated = false ∧
    (d.processCandle c oh ol).1.candles_since_or_lock =
      d.candles_since_or_lock + 1 ∧
    (d.processCandle c oh ol).2 = none := by
  unfold EntryDetector.processCandle
  dsimp only
  rw [if_neg (by omega), if_neg (by simp [hconf, hinv])]
  simp [hbs, hra, EntryDetector.checkForRetest,
    EntryDetector.resetAfterInvalidation, hdir, hcl]

theorem retest_invalidation_short (d : EntryDetector) (c : Candle) (oh ol : ℚ)
    (hskip : SKIP_FIRST_N < d.candles_since_or_lock + 1)
    (hconf : d.confirmed = false) (hinv : d.invalidated = false)
    (hbs : d.breakout_seen = true) (hra : d.retest_active = false)
    (hdir : d.breakout_direction = some Dir.short) (hcl : c.close > ol) :
    (d.processCandle c oh ol).1.breakout_seen = false ∧
    (d.processCandle c oh ol).1.retest_active = false ∧
    (d.processCandle c oh ol).1.retest_candle = none ∧
    (d.processCandle c oh ol).1.confirmed = false ∧
    (d.processCandle c oh ol).1.invalidated = false ∧
    (d.processCandle c oh ol).1.candles_since_or_lock =
      d.candles_since_or_lock + 1 ∧
    (d.processCandle c oh ol).2 = none := by
  unfold EntryDetector.processCandle
  dsimp only
  rw [if_neg (by omega), if_neg (by simp [hconf, hinv])]
  simp [hbs, hra, EntryDetector.checkForRetest,
    EntryDetector.resetAfterInvalidation, hdir, hcl, dir_short_ne_long]

/-- C7: while a long breakout is recorded with no retest yet, a bar
closing back below OR_high invalidates and returns the detector to
searching-breakout (preserving the progress-reset shape), after which
a bar closing above OR_high records a fresh breakout; a bar that does
not invalidate records a retest exactly when its [low, high] range
intersects the tolerance band around the broken boundary; all
mirrored for short. -/
theorem retest_stage_behaviour :
    (∀ (d : EntryDetector) (c : Candle) (oh ol : ℚ),
      SKIP_FIRST_N < d.candles_since_or_lock + 1 →
      d.confirmed = false → d.invalidated = false →
      d.breakout_seen = true → d.retest_active = false →
      d.breakout_direction = some Dir.long → c.close < oh →
      (d.processCandle c oh ol).1.breakout_seen = false ∧
      (d.processCandle c oh ol).1.retest_active = false ∧
      (d.processCandle c oh ol).1.retest_candle = none ∧
      (d.processCandle c oh ol).1.confirmed = false ∧
      (d.processCandle c oh ol).1.invalidated = false ∧
      (d.processCandle c oh ol).1.candles_since_or_lock =
        d.candles_since_or_lock + 1 ∧
      (d.processCandle c oh ol).2 = none) ∧
    (∀ (d : EntryDetector) (c : Candle) (oh ol : ℚ),
      SKIP_FIRST_N < d.candles_since_or_lock + 1 →
      d.confirmed = false → d.invalidated = false →
      d.breakout_seen = true → d.retest_active = false →
      d.breakout_direction = some Dir.short → c.close > ol →
      (d.processCandle c oh ol).1.breakout_seen = false ∧
      (d.processCandle c oh ol).1.retest_active = false ∧
      (d.processCandle c oh ol).1.retest_candle = none ∧
      (d.processCandle c oh ol).1.confirmed = false ∧
      (d.processCandle c oh ol).1.invalidated = false ∧
      (d.processCandle c oh ol).1.candles_since_or_lock =
        d.candles_since_or_lock + 1 ∧
      (d.processCandle c oh ol).2 = none) ∧
    (∀ (d : EntryDetector) (c : Candle) (oh ol : ℚ),
      SKIP_FIRST_N < d.candles_since_or_lock + 1 →
      d.confirmed = false → d.invalidated = false →
      d.breakout_seen = false → c.close > oh →
      (d.processCandle c oh ol).1.breakout_seen = true ∧
      (d.processCandle c oh ol).1.breakout_direction = some Dir.long) ∧
    (∀ (d : EntryDetector) (c : Candle) (oh ol : ℚ),
      SKIP_FIRST_N < d.candles_since_or_lock + 1 →
      d.confirmed = false → d.invalidated = false →
      d.breakout_seen = false → ol ≤ oh → c.close < ol →
      (d.processCandle c oh ol).1.breakout_seen = true ∧
      (d.processCandle c oh ol).1.breakout_direction = some Dir.short) ∧
    (∀ (d : EntryDetector) (c : Candle) (oh ol : ℚ),
      SKIP_FIRST_N < d.candles_since_or_lock + 1 →
      d.confirmed = false → d.invalidated = false →
      d.breakout_seen = true → d.retest_active = false →
      d.breakout_direction = some Dir.long → ¬ c.close < oh →
      ((d.processCandle c oh ol).1.retest_active = true ↔
        (c.low ≤ oh + (oh - ol) * RETEST_PCT ∧
         oh - (oh - ol) * RETEST_PCT ≤ c.high))) ∧
    (∀ (d : EntryDetector) (c : Candle) (oh ol : ℚ),
      SKIP_FIRST_N < d.candles_since_or_lock + 1 →
      d.confirmed = false → d.invalidated = false →
      d.breakout_seen = true → d.retest_active = false →
      d.breakout_direction = some Dir.short → ¬ c.close > ol →
      ((d.processCandle c oh ol).1.retest_active = true ↔
        (ol - (oh - ol) * RETEST_PCT ≤ c.high ∧
         c.low ≤ ol + (oh - ol) * RETEST_PCT))) :=
  ⟨retest_invalidation_long, retest_invalidation_short,
   breakout_while_searching_long, breakout_while_searching_short,
   retest_zone_iff_long, retest_zone_iff_short⟩

/-- Witness for C7: the concrete breakout state of the trade trace
with the concrete retest bar, whose range meets the tolerance band. -/
theorem retest_stage_behaviour_witness :
    (EntryDetector.processCandle traceState6 retestBar 2010 2000).1.retest_active
        = true ↔
      (retestBar.low ≤ 2010 + (2010 - 2000) * RETEST_PCT ∧
       2010 - (2010 - 2000) * RETEST_PCT ≤ retestBar.high) :=
  retest_stage_behaviour.2.2.2.2.1 traceState6 retestBar 2010 2000
    (by norm_num [traceState6, warmState, SKIP_FIRST_N]) rfl rfl rfl rfl rfl
    (by norm_num [retestBar, mkBar])

end XauUsd
